import Mathlib

/-!
Verification of the mpi-resilience fault-recovery example.

The development shallowly embeds the two source files:

* `src/mpi-resilience.h` — the resilience API: start states, cleanup
  handler codes, fault modes, and the documented semantics of the cleanup
  stack, the unwind protocol and the fault probe (these three are declared
  in the header but implemented outside the repository, so they are
  modelled from the specification where noted).
* `src/example.c` — the example application: `application_cleanup_handler`
  and the recovery prologue of `resilient_main` (group-size check, the
  three consensus reductions, checkpoint relocation, and the minimum
  reduction that fixes the group-wide restart step).

MPI collectives are modelled as pure functions of the list of per-rank
contributions; an `MPI_Allreduce` delivers the same combined value to
every rank, so a single function value models the result seen everywhere.
Per the MPI standard, `MPI_LAND` on C ints treats nonzero as true, and
`MPI_MAXLOC` combines (value, rank) pairs taking the maximum value and,
among ties, the minimum rank index.
-/

-- ===========================================================================
-- Data model from src/mpi-resilience.h
-- ===========================================================================

/-- `MPI_Start_state` from src/mpi-resilience.h lines 9–13: how a process
was initialized (fresh start, restarted after fault, or added as a
replacement for a failed process). -/
inductive MPI_Start_state
  | MPI_START_NEW
  | MPI_START_RESTARTED
  | MPI_START_ADDED
deriving DecidableEq, Repr

/-- `MPI_Cleanup_code` from src/mpi-resilience.h lines 82–85: result of a
cleanup handler. -/
inductive MPI_Cleanup_code
  | MPI_CLEANUP_ABORT
  | MPI_CLEANUP_SUCCESS
deriving DecidableEq, Repr

/-- `MPI_Fault_mode` from src/mpi-resilience.h lines 148–151. -/
inductive MPI_Fault_mode
  | MPI_SYNCHRONOUS_FAULTS
  | MPI_ASYNCHRONOUS_FAULTS
deriving DecidableEq, Repr

-- ===========================================================================
-- MPI collective reductions (semantics of MPI_Allreduce with the ops used
-- in src/example.c: MPI_LAND, MPI_MAXLOC, MPI_MIN)
-- ===========================================================================

/-- `MPI_Allreduce(..., MPI_LAND, ...)` over C ints: the result, delivered
identically to every rank, is 1 when every contribution is nonzero (C
truth) and 0 otherwise. -/
def allreduce_land (xs : List Int) : Int :=
  if ∀ x ∈ xs, x ≠ 0 then 1 else 0

/-- `MPI_Allreduce(..., MPI_MIN, ...)`: the minimum of all contributions,
delivered identically to every rank.  A communicator is never empty; the
`[]` case is an unused default. -/
def allreduce_min : List Int → Int
  | [] => 0
  | x :: xs => xs.foldl min x

/-- The MPI_MAXLOC combining operation on (value, rank) pairs: larger
value wins; among equal values the smaller rank index wins (MPI standard
definition of MAXLOC). -/
def maxloc_op (a b : Int × Nat) : Int × Nat :=
  if b.1 > a.1 then b
  else if a.1 > b.1 then a
  else if a.2 ≤ b.2 then a else b

/-- Fold of `maxloc_op` over the contributions of ranks `i, i+1, ...`. -/
def maxlocAux : Nat → List Int → Int × Nat → Int × Nat
  | _, [], acc => acc
  | i, x :: xs, acc => maxlocAux (i + 1) xs (maxloc_op acc (x, i))

/-- `MPI_Allreduce(..., MPI_MAXLOC, ...)`: rank r contributes the pair
(value_r, r); the result is the maximal value together with the least
rank attaining it.  The `[]` case is an unused default. -/
def allreduce_maxloc : List Int → Int × Nat
  | [] => (0, 0)
  | x :: xs => maxlocAux 1 xs (x, 0)

-- ===========================================================================
-- Per-process environment for resilient_main (src/example.c)
-- ===========================================================================

/-- The state and pseudo-code environment of one rank on entry to
`resilient_main` (src/example.c lines 58–101).  `time_step` is the value
of the static global at entry (set by `parse_start_step` in `main` for a
fresh or added process, or left from the previous episode for a
restarted one).  The remaining fields give the return values of the
extern pseudo-code routines on this rank. -/
structure ProcEnv where
  start_state : MPI_Start_state
  time_step : Int
  have_neighbor_checkpoint_for : Nat → Int
  receive_neighbor_checkpoint : Int
  last_checkpoint_on_disk : Int
  can_load_checkpoint_from_memory : Int → Int

/-- src/example.c line 70: `i_died = (start_state == MPI_START_ADDED ? 1 : 0)`. -/
def i_died (p : ProcEnv) : Int :=
  if p.start_state = MPI_Start_state.MPI_START_ADDED then 1 else 0

/-- src/example.c line 72: `MPI_Allreduce(&i_died, &someone_died, 1,
MPI_INT, MPI_LAND, MPI_COMM_WORLD)` — note the op is MPI_LAND, so the
result is nonzero only when every rank contributed a nonzero `i_died`. -/
def someone_died (g : List ProcEnv) : Int :=
  allreduce_land (g.map i_died)

/-- src/example.c line 73: the MAXLOC reduction over the `i_died` flags;
`who_died` is the location (rank) component of the result. -/
def who_died (g : List ProcEnv) : Nat :=
  (allreduce_maxloc (g.map i_died)).2

/-- src/example.c lines 76–77: every rank contributes
`have_neighbor_checkpoint_for(who_died)` to an MPI_LAND reduction. -/
def have_cp (g : List ProcEnv) : Int :=
  allreduce_land (g.map (fun p => p.have_neighbor_checkpoint_for (who_died g)))

/-- The value of `time_step` on one rank after the death-handling block
(src/example.c lines 75–88), i.e. the rank's contribution to the MIN
reduction at line 91.  In the `someone_died` branch a rank with `i_died`
set receives the neighbor replica's step when the group-wide `have_cp`
AND is nonzero and otherwise falls back to its own last durable
checkpoint; the `send_neighbor_checkpoint_to` branch taken by a surviving
replica holder does not modify `time_step`. -/
def step_contribution (g : List ProcEnv) (p : ProcEnv) : Int :=
  if someone_died g ≠ 0 then
    if i_died p ≠ 0 then
      if have_cp g ≠ 0 then p.receive_neighbor_checkpoint
      else p.last_checkpoint_on_disk
    else p.time_step
  else p.time_step

/-- src/example.c line 91: `MPI_Allreduce(MPI_IN_PLACE, &time_step, 1,
MPI_INT, MPI_MIN, MPI_COMM_WORLD)`.  This models a fault episode, in
which every rank has `start_state != MPI_START_NEW` and therefore enters
the block at lines 68–92; the result is the group-wide restart step, the
same value on every rank. -/
def recovery_step (g : List ProcEnv) : Int :=
  allreduce_min (g.map (step_contribution g))

/-- Outcome of the entry-time group-size check. -/
inductive EntryCheck
  | aborted
  | proceeded
deriving DecidableEq, Repr

/-- src/example.c lines 63–66: `if (can_run_at_size(size)) {
MPI_Abort(MPI_COMM_WORLD, 1); }`.  `MPI_Abort` is executed exactly when
`can_run_at_size(size)` returns nonzero; only in the `proceeded` case
does control reach the consensus reductions at lines 68–92. -/
def size_check (can_run_at_size : Int → Int) (size : Int) : EntryCheck :=
  if can_run_at_size size ≠ 0 then EntryCheck.aborted else EntryCheck.proceeded

/-- Where the checkpoint for the restart step is loaded from. -/
inductive CheckpointSource
  | memory_cache
  | durable_storage
deriving DecidableEq, Repr

/-- src/example.c lines 97–101: `if (can_load_checkpoint_from_memory(time_step))
load_checkpoint_from_memory(time_step); else
load_checkpoint_from_filesystem(time_step);`. -/
def load_checkpoint_source (p : ProcEnv) (step : Int) : CheckpointSource :=
  if p.can_load_checkpoint_from_memory step ≠ 0 then CheckpointSource.memory_cache
  else CheckpointSource.durable_storage

/-- `application_cleanup_handler` from src/example.c lines 40–52.
`dealloc` and `reinit` are the int return values of the extern routines
`deallocate_app_data()` and `reinit_libraries()`; C truth applies
(`!x` is `x == 0`).  The second component records whether
`reinit_libraries()` was invoked: it is evaluated only when the first
`if` falls through, i.e. when `deallocate_app_data()` returned nonzero. -/
def application_cleanup_handler (dealloc reinit : Int)
    (start_state : MPI_Start_state) (state : Int) : MPI_Cleanup_code × Bool :=
  if dealloc = 0 then (MPI_Cleanup_code.MPI_CLEANUP_ABORT, false)
  else if reinit = 0 then (MPI_Cleanup_code.MPI_CLEANUP_ABORT, true)
  else (MPI_Cleanup_code.MPI_CLEANUP_SUCCESS, true)

-- ===========================================================================
-- Cleanup handler stack and unwind (declared in src/mpi-resilience.h,
-- implemented outside the repository; modelled from the spec)
-- ===========================================================================

/-- Modelled from the spec: the implementation of `MPI_Cleanup_handler_push`
(declared at src/mpi-resilience.h line 124) is not in the repository.  The
stack is the ordered sequence of (handler, state) pairs, newest at the
head; push registers at the top. -/
def MPI_Cleanup_handler_push {H S : Type} (h : H) (s : S)
    (stack : List (H × S)) : List (H × S) :=
  (h, s) :: stack

/-- Modelled from the spec: the implementation of `MPI_Cleanup_handler_pop`
(declared at src/mpi-resilience.h lines 134–135) is not in the repository.
Per the header comment (lines 126–132), pop removes and returns the last
registered handler; on an empty stack it writes out the
`MPI_CLEANUP_HANDLER_NULL` sentinel for the handler and NULL for the
state, modelled as the pair (none, none). -/
def MPI_Cleanup_handler_pop {H S : Type} :
    List (H × S) → (Option H × Option S) × List (H × S)
  | [] => ((none, none), [])
  | e :: rest => ((some e.1, some e.2), rest)

/-- One call in a sequence of cleanup-stack operations. -/
inductive StackOp (H S : Type)
  | push (h : H) (s : S)
  | pop

/-- Runs a sequence of push/pop calls on a cleanup stack, returning the
final stack and the list of pop outputs in call order. -/
def runOps {H S : Type} :
    List (StackOp H S) → List (H × S) → List (H × S) × List (Option H × Option S)
  | [], st => (st, [])
  | StackOp.push h s :: ops, st => runOps ops (MPI_Cleanup_handler_push h s st)
  | StackOp.pop :: ops, st =>
    ((runOps ops (MPI_Cleanup_handler_pop st).2).1,
     (MPI_Cleanup_handler_pop st).1 :: (runOps ops (MPI_Cleanup_handler_pop st).2).2)

/-- Pushes the pairs of `ps` in list order onto `st`. -/
def pushAll {H S : Type} : List (H × S) → List (H × S) → List (H × S)
  | [], st => st
  | p :: ps, st => pushAll ps (MPI_Cleanup_handler_push p.1 p.2 st)

/-- Performs `k` consecutive pops and returns their outputs in order. -/
def runPops {H S : Type} : Nat → List (H × S) → List (Option H × Option S)
  | 0, _ => []
  | k + 1, st =>
    (MPI_Cleanup_handler_pop st).1 :: runPops k (MPI_Cleanup_handler_pop st).2

/-- Outcome of unwinding the cleanup handler stack on a fault. -/
inductive UnwindOutcome
  | unwound
  | fatal_abort
deriving DecidableEq, Repr

/-- Modelled from the spec: the unwind algorithm run by the MPI
implementation on a fault is not in the repository; src/mpi-resilience.h
lines 95–104 document it (handlers are popped and executed in LIFO
order; if any returns `MPI_CLEANUP_ABORT` the fault is unrecoverable and
the entire application aborts).  A handler is modelled as a function of
the pending restart step.  The result is the number of handlers invoked,
counted from the top of the stack, together with the outcome:
`fatal_abort` represents propagation to the group-wide abort path. -/
def unwind (step : Int) : List (Int → MPI_Cleanup_code) → Nat × UnwindOutcome
  | [] => (0, UnwindOutcome.unwound)
  | h :: rest =>
    match h step with
    | MPI_Cleanup_code.MPI_CLEANUP_ABORT => (1, UnwindOutcome.fatal_abort)
    | MPI_Cleanup_code.MPI_CLEANUP_SUCCESS =>
      ((unwind step rest).1 + 1, (unwind step rest).2)

-- ===========================================================================
-- Fault probe (declared in src/mpi-resilience.h, implemented outside the
-- repository; modelled from the spec)
-- ===========================================================================

/-- Phase of the per-process recovery state machine. -/
inductive RunPhase
  | RUNNING
  | UNWINDING
deriving DecidableEq, Repr

/-- The observable per-process state consulted by the fault probe: the
cleanup handler stack (handlers abstracted to identifiers), the step
ledger, the fault delivery mode, the pending restart step, whether a
fault is pending, and the state-machine phase. -/
structure ProcState where
  cleanup_stack : List (Int × Int)
  last_completed_step : Int
  fault_mode : MPI_Fault_mode
  restart_step : Int
  fault_pending : Bool
  phase : RunPhase
deriving DecidableEq, Repr

/-- Modelled from the spec: the implementation of `MPI_Fault_probe`
(declared at src/mpi-resilience.h line 161) is not in the repository.
Per the header comment (lines 154–160) and the spec, the probe tests for
faults synchronously: if a fault is pending it triggers entry into the
fault handler (the unwind phase of the episode); otherwise it returns
immediately. -/
def MPI_Fault_probe (s : ProcState) : ProcState :=
  if s.fault_pending then
    { s with fault_pending := false, phase := RunPhase.UNWINDING }
  else s

-- ===========================================================================
-- Checkpoint resolution (the source fallback choice is src/example.c
-- lines 97–101; the failure contract is modelled from the spec)
-- ===========================================================================

/-- Modelled from the spec: the checkpoint locator's
`resolve(step, role) -> CheckpointHandle` contract; the source code
(src/example.c lines 97–101) chooses the in-memory cache for exactly the
restart step when present and otherwise calls the durable-storage load,
whose failure behavior is not in the repository.  `mem_has` and
`disk_has` state which steps each source has data for; resolution
returns the chosen source and fails (returns none, a fatal condition per
the spec) only when no source has data for the step. -/
def resolve (mem_has disk_has : Int → Bool) (step : Int) : Option CheckpointSource :=
  if mem_has step then some CheckpointSource.memory_cache
  else if disk_has step then some CheckpointSource.durable_storage
  else none

-- ===========================================================================
-- Concrete scenario inputs
-- ===========================================================================

/-- A two-rank fault episode: rank 0 survived (restarted) at step 9; rank 1
is a replacement (added) whose replica/durable checkpoint is at step 7 and
whose `time_step` global still holds the fresh-start default 0 from
`parse_start_step`. -/
def gMixed : List ProcEnv :=
  [ { start_state := MPI_Start_state.MPI_START_RESTARTED, time_step := 9,
      have_neighbor_checkpoint_for := fun _ => 1,
      receive_neighbor_checkpoint := 7, last_checkpoint_on_disk := 9,
      can_load_checkpoint_from_memory := fun _ => 0 },
    { start_state := MPI_Start_state.MPI_START_ADDED, time_step := 0,
      have_neighbor_checkpoint_for := fun _ => 1,
      receive_neighbor_checkpoint := 7, last_checkpoint_on_disk := 7,
      can_load_checkpoint_from_memory := fun _ => 0 } ]

/-- The four-rank scenario of the spec: ranks 0, 1, 3 survive at steps 9,
7, 8; rank 2 died at step 7 and is replaced by an added process whose
`time_step` global holds the fresh-start default 0; rank 3 holds a
replica of rank 2's step-7 checkpoint (every rank reports 1 to the
replica AND, the survivors without the replica vacuously). -/
def gScenario : List ProcEnv :=
  [ { start_state := MPI_Start_state.MPI_START_RESTARTED, time_step := 9,
      have_neighbor_checkpoint_for := fun _ => 1,
      receive_neighbor_checkpoint := 0, last_checkpoint_on_disk := 9,
      can_load_checkpoint_from_memory := fun _ => 0 },
    { start_state := MPI_Start_state.MPI_START_RESTARTED, time_step := 7,
      have_neighbor_checkpoint_for := fun _ => 1,
      receive_neighbor_checkpoint := 0, last_checkpoint_on_disk := 7,
      can_load_checkpoint_from_memory := fun _ => 0 },
    { start_state := MPI_Start_state.MPI_START_ADDED, time_step := 0,
      have_neighbor_checkpoint_for := fun _ => 1,
      receive_neighbor_checkpoint := 7, last_checkpoint_on_disk := 7,
      can_load_checkpoint_from_memory := fun _ => 0 },
    { start_state := MPI_Start_state.MPI_START_RESTARTED, time_step := 8,
      have_neighbor_checkpoint_for := fun _ => 1,
      receive_neighbor_checkpoint := 0, last_checkpoint_on_disk := 8,
      can_load_checkpoint_from_memory := fun _ => 0 } ]

/-- A two-rank episode in which both ranks are replacements (so the
MPI_LAND at src/example.c line 72 does confirm the death) and neither
holds any replica checkpoint; following the reporting convention of the
claim, both report 1 (vacuous truth) to the replica AND. -/
def gVacuous : List ProcEnv :=
  [ { start_state := MPI_Start_state.MPI_START_ADDED, time_step := 0,
      have_neighbor_checkpoint_for := fun _ => 1,
      receive_neighbor_checkpoint := 4, last_checkpoint_on_disk := 4,
      can_load_checkpoint_from_memory := fun _ => 0 },
    { start_state := MPI_Start_state.MPI_START_ADDED, time_step := 0,
      have_neighbor_checkpoint_for := fun _ => 1,
      receive_neighbor_checkpoint := 4, last_checkpoint_on_disk := 4,
      can_load_checkpoint_from_memory := fun _ => 0 } ]

/-- Which rank of `gVacuous` actually holds a replica checkpoint for the
dead rank: none does (the reports in `gVacuous` are vacuously true). -/
def gVacuous_holds : Nat → Bool := fun _ => false

/-- A two-rank episode for the replica-AND property: rank 1 is the
designated holder of the dead rank's replica and has it (reports 1);
rank 0 holds nothing and reports 1 vacuously. -/
def gHolder : List ProcEnv :=
  [ { start_state := MPI_Start_state.MPI_START_ADDED, time_step := 0,
      have_neighbor_checkpoint_for := fun _ => 1,
      receive_neighbor_checkpoint := 5, last_checkpoint_on_disk := 5,
      can_load_checkpoint_from_memory := fun _ => 0 },
    { start_state := MPI_Start_state.MPI_START_ADDED, time_step := 0,
      have_neighbor_checkpoint_for := fun _ => 1,
      receive_neighbor_checkpoint := 5, last_checkpoint_on_disk := 5,
      can_load_checkpoint_from_memory := fun _ => 0 } ]

/-- Which rank of `gHolder` actually holds the replica: rank 1 does. -/
def gHolder_holds : Nat → Bool := fun i => decide (i = 1)

/-- A two-rank episode in which both ranks are replacements: ranks 0 and
1 are both dead ranks taken over by added processes. -/
def gBothDied : List ProcEnv :=
  [ { start_state := MPI_Start_state.MPI_START_ADDED, time_step := 0,
      have_neighbor_checkpoint_for := fun _ => 1,
      receive_neighbor_checkpoint := 3, last_checkpoint_on_disk := 3,
      can_load_checkpoint_from_memory := fun _ => 0 },
    { start_state := MPI_Start_state.MPI_START_ADDED, time_step := 0,
      have_neighbor_checkpoint_for := fun _ => 1,
      receive_neighbor_checkpoint := 3, last_checkpoint_on_disk := 3,
      can_load_checkpoint_from_memory := fun _ => 0 } ]

/-- A two-rank episode with one survivor (rank 0) and one replacement
(rank 1), used to instantiate the dead-rank identification property. -/
def gOneDead : List ProcEnv :=
  [ { start_state := MPI_Start_state.MPI_START_RESTARTED, time_step := 6,
      have_neighbor_checkpoint_for := fun _ => 1,
      receive_neighbor_checkpoint := 0, last_checkpoint_on_disk := 6,
      can_load_checkpoint_from_memory := fun _ => 0 },
    { start_state := MPI_Start_state.MPI_START_ADDED, time_step := 0,
      have_neighbor_checkpoint_for := fun _ => 1,
      receive_neighbor_checkpoint := 5, last_checkpoint_on_disk := 5,
      can_load_checkpoint_from_memory := fun _ => 0 } ]

/-- A depth-3 cleanup stack: the top handler succeeds, the middle handler
returns ABORT, the bottom handler would succeed. -/
def demoStack : List (Int → MPI_Cleanup_code) :=
  [ fun _ => MPI_Cleanup_code.MPI_CLEANUP_SUCCESS,
    fun _ => MPI_Cleanup_code.MPI_CLEANUP_ABORT,
    fun _ => MPI_Cleanup_code.MPI_CLEANUP_SUCCESS ]

/-- An operation sequence with two pops on an empty stack followed by a
push and a further pop: after the first three calls more pops (2) than
pushes (1) have occurred. -/
def cexOps : List (StackOp Int Int) :=
  [ StackOp.pop, StackOp.pop, StackOp.push 7 3, StackOp.pop ]

/-- A concrete process state with no pending fault. -/
def quietState : ProcState :=
  { cleanup_stack := [(1, 2), (3, 4)], last_completed_step := 5,
    fault_mode := MPI_Fault_mode.MPI_SYNCHRONOUS_FAULTS,
    restart_step := 3, fault_pending := false, phase := RunPhase.RUNNING }

/-- The position of the first entry equal to 1 in a list, if any. -/
def firstOne : List Int → Option Nat
  | [] => none
  | x :: xs => if x = 1 then some 0 else (firstOne xs).map (fun j => j + 1)

/-- A rank with no in-memory copy of any checkpoint step. -/
def pNoMem : ProcEnv :=
  { start_state := MPI_Start_state.MPI_START_RESTARTED, time_step := 7,
    have_neighbor_checkpoint_for := fun _ => 1,
    receive_neighbor_checkpoint := 0, last_checkpoint_on_disk := 7,
    can_load_checkpoint_from_memory := fun _ => 0 }

-- ===========================================================================
-- Helper lemmas
-- ===========================================================================

/-- The MPI_LAND model is nonzero exactly when every contribution is
nonzero. -/
theorem allreduce_land_ne_zero (xs : List Int) :
    allreduce_land xs ≠ 0 ↔ ∀ x ∈ xs, x ≠ 0 := by
  unfold allreduce_land
  split <;> simp_all

/-- Once the MAXLOC fold holds the value 1 at an index below `i`, the
remaining contributions (all at most 1, at indices at least `i`) leave the
accumulator unchanged. -/
theorem maxlocAux_of_top (xs : List Int) : ∀ (i : Nat) (acc : Int × Nat),
    (∀ x ∈ xs, x ≤ 1) → acc.1 = 1 → acc.2 < i → maxlocAux i xs acc = acc := by
  induction xs with
  | nil => intro i acc _ _ _; rfl
  | cons x xs ih =>
    intro i acc hle h1 hlt
    have hx : x ≤ 1 := hle x (List.mem_cons_self x xs)
    have hop : maxloc_op acc (x, i) = acc := by
      unfold maxloc_op
      rw [if_neg (by simp only [h1]; exact not_lt.mpr hx)]
      by_cases hgt : acc.1 > (x, i).1
      · rw [if_pos hgt]
      · rw [if_neg hgt, if_pos (le_of_lt hlt)]
    show maxlocAux (i + 1) xs (maxloc_op acc (x, i)) = acc
    rw [hop]
    exact ih (i + 1) acc (fun y hy => hle y (List.mem_cons_of_mem x hy)) h1
      (Nat.lt_succ_of_lt hlt)

/-- The MAXLOC fold starting from value 0 at an index below `i`, over 0/1
contributions at indices `i, i+1, ...`, lands on the first contribution
equal to 1 if there is one. -/
theorem maxlocAux_of_zero (xs : List Int) : ∀ (i a : Nat),
    (∀ x ∈ xs, x = 0 ∨ x = 1) → a < i →
    maxlocAux i xs (0, a) =
      (match firstOne xs with
        | some j => ((1 : Int), i + j)
        | none => ((0 : Int), a)) := by
  induction xs with
  | nil => intro i a _ _; rfl
  | cons x xs ih =>
    intro i a hv hai
    rcases hv x (List.mem_cons_self x xs) with hx | hx
    · subst hx
      have hop : maxloc_op (0, a) ((0 : Int), i) = (0, a) := by
        unfold maxloc_op
        rw [if_neg (by simp), if_neg (by simp), if_pos (le_of_lt hai)]
      show maxlocAux (i + 1) xs (maxloc_op (0, a) (0, i)) = _
      rw [hop, ih (i + 1) a (fun y hy => hv y (List.mem_cons_of_mem _ hy))
        (Nat.lt_succ_of_lt hai)]
      simp only [firstOne, if_neg (by norm_num : ¬ ((0 : Int) = 1))]
      cases hfo : firstOne xs with
      | none => simp
      | some j =>
        simp only [Option.map]
        simp only [Prod.mk.injEq]
        exact ⟨trivial, by omega⟩
    · subst hx
      have hop : maxloc_op (0, a) ((1 : Int), i) = (1, i) := by
        unfold maxloc_op
        rw [if_pos (by norm_num)]
      show maxlocAux (i + 1) xs (maxloc_op (0, a) (1, i)) = _
      rw [hop, maxlocAux_of_top xs (i + 1) (1, i)
        (fun y hy => by rcases hv y (List.mem_cons_of_mem _ hy) with h | h <;> omega)
        rfl (Nat.lt_succ_self i)]
      simp [firstOne]

/-- The MAXLOC reduction over 0/1 contributions returns (1, j) where j is
the position of the first 1, or (0, 0) when every contribution is 0. -/
theorem allreduce_maxloc_firstOne (x : Int) (xs : List Int)
    (hv : ∀ y ∈ x :: xs, y = 0 ∨ y = 1) :
    allreduce_maxloc (x :: xs) =
      (match firstOne (x :: xs) with
        | some j => ((1 : Int), j)
        | none => ((0 : Int), 0)) := by
  rcases hv x (List.mem_cons_self x xs) with hx | hx
  · subst hx
    show maxlocAux 1 xs (0, 0) = _
    rw [maxlocAux_of_zero xs 1 0 (fun y hy => hv y (List.mem_cons_of_mem _ hy))
      Nat.zero_lt_one]
    simp only [firstOne, if_neg (by norm_num : ¬ ((0 : Int) = 1))]
    cases hfo : firstOne xs with
    | none => rfl
    | some j =>
      simp only [Option.map, Prod.mk.injEq]
      exact ⟨trivial, by omega⟩
  · subst hx
    show maxlocAux 1 xs (1, 0) = _
    rw [maxlocAux_of_top xs 1 (1, 0)
      (fun y hy => by rcases hv y (List.mem_cons_of_mem _ hy) with h | h <;> omega)
      rfl Nat.zero_lt_one]
    simp [firstOne]

/-- If position j holds a 1 and every earlier position holds a 0, then j
is the position of the first 1. -/
theorem firstOne_of_least (xs : List Int) : ∀ (j : Nat) (hj : j < xs.length),
    xs.get ⟨j, hj⟩ = 1 →
    (∀ (k : Nat) (hk : k < j), xs.get ⟨k, Nat.lt_trans hk hj⟩ = 0) →
    firstOne xs = some j := by
  induction xs with
  | nil => intro j hj; exact absurd hj (Nat.not_lt_zero j)
  | cons x xs ih =>
    intro j hj hget hbefore
    cases j with
    | zero =>
      have hx : x = 1 := hget
      simp [firstOne, hx]
    | succ j =>
      have hx0 : x = 0 := hbefore 0 (Nat.succ_pos j)
      have hxne : ¬ (x = 1) := by rw [hx0]; norm_num
      have hj2 : j < xs.length := Nat.lt_of_succ_lt_succ hj
      have hget2 : xs.get ⟨j, hj2⟩ = 1 := hget
      have hbefore2 : ∀ (k : Nat) (hk : k < j), xs.get ⟨k, Nat.lt_trans hk hj2⟩ = 0 :=
        fun k hk => hbefore (k + 1) (Nat.succ_lt_succ hk)
      simp only [firstOne, if_neg hxne]
      rw [ih j hj2 hget2 hbefore2]
      rfl

/-- Pushing the pairs of `ps` in order results in the reversed list on
top of the prior stack. -/
theorem pushAll_eq (H S : Type) (ps : List (H × S)) : ∀ st : List (H × S),
    pushAll ps st = ps.reverse ++ st := by
  induction ps with
  | nil => intro st; simp [pushAll]
  | cons p ps ih =>
    intro st
    show pushAll ps ((p.1, p.2) :: st) = _
    rw [ih ((p.1, p.2) :: st)]
    simp

/-- `k` consecutive pops return the stacked pairs from the top down and
then the (none, none) sentinel on every further pop. -/
theorem runPops_eq (H S : Type) : ∀ (k : Nat) (st : List (H × S)),
    runPops k st =
      ((st.map (fun e => ((some e.1 : Option H), (some e.2 : Option S)))) ++
        List.replicate (k - st.length) ((none : Option H), (none : Option S))).take k := by
  intro k
  induction k with
  | zero => intro st; simp [runPops]
  | succ k ih =>
    intro st
    cases st with
    | nil =>
      show ((none : Option H), (none : Option S)) :: runPops k [] = _
      rw [ih []]
      simp [List.replicate_succ]
    | cons e rest =>
      show ((some e.1, some e.2) : Option H × Option S) :: runPops k rest = _
      rw [ih rest]
      simp [Nat.succ_sub_succ]

-- ===========================================================================
-- Claim theorems
-- ===========================================================================

/-- C1: evaluation of the code at a failing episode.  In the two-rank
episode `gMixed` (survivor at step 9; replacement whose loaded-checkpoint
step would be 7 but whose `time_step` global still holds 0), the MPI_LAND
at src/example.c line 72 leaves `someone_died` at 0, so the replacement
never loads a checkpoint before the MIN reduction and the agreed restart
step is min(9, 0) = 0, not the min(9, 7) = 7 required by the claim. -/
theorem c1_failing_episode_eval :
    someone_died gMixed = 0 ∧ recovery_step gMixed = 0 ∧ recovery_step gMixed ≠ 7 := by
  decide

/-- C2: evaluation of the inverted group-size check.  src/example.c line
64 reads `if (can_run_at_size(size)) MPI_Abort(...)`: the group aborts
exactly when `can_run_at_size` returns nonzero (viable) and proceeds
into the consensus reductions when it returns 0 (not viable) — the
opposite of the claim and of the code's own comment at line 63. -/
theorem c2_inverted_check_eval :
    size_check (fun _ => 1) 4 = EntryCheck.aborted ∧
    size_check (fun _ => 0) 4 = EntryCheck.proceeded := by
  decide

/-- C3: evaluation of the code at the spec's four-rank scenario
(`gScenario`: survivors 0, 1, 3 at steps 9, 7, 8; rank 2 replaced, its
replica at step 7 held by rank 3).  The MPI_LAND at src/example.c line 72
gives `someone_died = 0`, so the death is never confirmed, no replica is
transferred, and the agreed restart step is min(9, 7, 0, 8) = 0, not 7.
The MAXLOC reduction does identify rank 2. -/
theorem c3_scenario_eval :
    someone_died gScenario = 0 ∧ who_died gScenario = 2 ∧
    recovery_step gScenario = 0 ∧ recovery_step gScenario ≠ 7 := by
  decide

/-- C4 counterexample: in the episode `gVacuous` the death is confirmed
(both ranks are replacements, so the line-72 MPI_LAND is 1), no process
holds a replica for the dead rank (`gVacuous_holds` is false at both
ranks), and every process therefore reports 1 to the replica AND
vacuously, per the claim's own reporting convention — yet the AND result
`have_cp` is 1.  The AND being true is therefore not equivalent to some
process holding the replica, refuting the claim as stated. -/
theorem c4_vacuous_and_counterexample :
    someone_died gVacuous = 1 ∧ have_cp gVacuous = 1 ∧
    gVacuous_holds 0 = false ∧ gVacuous_holds 1 = false := by
  decide

/-- C4 (amended): the group-wide AND of the per-process
`have_neighbor_checkpoint_for(who_died)` reports is nonzero exactly when
every process reports nonzero; this equals "some process holds the
replica" under the designated-holder discipline: one designated rank `d`
reports whether it holds the replica, every other rank holds nothing and
reports nonzero vacuously. -/
theorem c4_replica_and_designated_holder (g : List ProcEnv) (holds : Nat → Bool)
    (d : Nat) (hd : d < g.length)
    (hrep : ∀ (i : Nat) (hi : i < g.length), i ≠ d →
      (g.get ⟨i, hi⟩).have_neighbor_checkpoint_for (who_died g) ≠ 0)
    (hnh : ∀ i : Nat, i ≠ d → holds i = false)
    (hdrep : (g.get ⟨d, hd⟩).have_neighbor_checkpoint_for (who_died g) ≠ 0 ↔
      holds d = true) :
    (have_cp g ≠ 0) ↔ (∃ i : Nat, holds i = true) := by
  unfold have_cp
  rw [allreduce_land_ne_zero]
  constructor
  · intro hall
    refine ⟨d, hdrep.mp ?_⟩
    exact hall _ (List.mem_map_of_mem _ (List.get_mem g d hd))
  · rintro ⟨i, hi⟩
    have hid : i = d := by
      by_contra hne
      rw [hnh i hne] at hi
      exact Bool.false_ne_true hi
    subst hid
    intro x hx
    rcases List.mem_map.mp hx with ⟨p, hp, rfl⟩
    rcases List.mem_iff_get.mp hp with ⟨n, rfl⟩
    by_cases hnd : (n : Nat) = i
    · have hgn : g.get n = g.get ⟨i, hd⟩ := by
        congr 1
        exact Fin.ext hnd
      rw [hgn]
      exact hdrep.mpr hi
    · exact hrep n n.isLt hnd

/-- C4 witness: the designated-holder property instantiated at `gHolder`
(rank 1 designated, holding the replica). -/
theorem c4_replica_and_witness :
    (1 < gHolder.length) ∧ ((have_cp gHolder ≠ 0) ↔ (∃ i : Nat, gHolder_holds i = true)) :=
  ⟨by decide,
   c4_replica_and_designated_holder gHolder gHolder_holds 1 (by decide)
     (by decide)
     (fun i hne => by simp [gHolder_holds, hne])
     (by simp [gHolder, gHolder_holds])⟩

/-- C5: during an unwind, if the handler at depth j (0 = top) returns
ABORT at the pending restart step, then at most j + 1 handlers are
invoked — so no handler below the ABORTing one ever runs — and the
outcome is the group-fatal abort; moreover, on the depth-3 stack
`demoStack` whose middle handler returns ABORT, exactly the top and
middle handlers run (the bottom never does) and the outcome is fatal. -/
theorem c5_abort_stops_unwind :
    (∀ (step : Int) (stack : List (Int → MPI_Cleanup_code)) (j : Nat)
      (hj : j < stack.length),
      stack.get ⟨j, hj⟩ step = MPI_Cleanup_code.MPI_CLEANUP_ABORT →
      (unwind step stack).1 ≤ j + 1 ∧
      (unwind step stack).2 = UnwindOutcome.fatal_abort) ∧
    unwind 0 demoStack = (2, UnwindOutcome.fatal_abort) := by
  constructor
  · intro step stack
    induction stack with
    | nil => intro j hj; exact absurd hj (Nat.not_lt_zero j)
    | cons h rest ih =>
      intro j hj habort
      cases j with
      | zero =>
        have hh : h step = MPI_Cleanup_code.MPI_CLEANUP_ABORT := habort
        simp [unwind, hh]
      | succ j =>
        cases hh : h step with
        | MPI_CLEANUP_ABORT =>
          simp [unwind, hh]
        | MPI_CLEANUP_SUCCESS =>
          have hj2 : j < rest.length := Nat.lt_of_succ_lt_succ hj
          have habort2 : rest.get ⟨j, hj2⟩ step =
            MPI_Cleanup_code.MPI_CLEANUP_ABORT := habort
          have hr := ih j hj2 habort2
          simp only [unwind, hh]
          exact ⟨Nat.succ_le_succ hr.1, hr.2⟩
  · decide

/-- C5 witness: the ABORT-cuts-the-stack property applied to `demoStack`
at depth 1 (the middle handler). -/
theorem c5_abort_stops_unwind_witness :
    (unwind 0 demoStack).1 ≤ 1 + 1 ∧
    (unwind 0 demoStack).2 = UnwindOutcome.fatal_abort :=
  c5_abort_stops_unwind.1 0 demoStack 1 (by decide) rfl

/-- C6 counterexample: the operation sequence `cexOps` = pop, pop,
push (7, 3), pop.  After the first three calls more pops (two) than
pushes (one) have occurred, yet the further pop returns
(some 7, some 3), not the (none, none) sentinel, refuting the claim's
"every further pop writes the sentinel" over arbitrary sequences. -/
theorem c6_interleaved_pop_counterexample :
    (runOps cexOps ([] : List (Int × Int))).2 =
      [(none, none), (none, none), (some 7, some 3)] ∧
    ((some 7, some 3) : Option Int × Option Int) ≠ (none, none) := by
  decide

/-- C6 (amended): popping immediately after a push returns exactly the
pushed (handler, state) pair and restores the prior stack (the LIFO
law), and in a run of pushes followed only by pops the pops return the
pushed pairs in exact reverse push order, then the (none, none)
sentinel on every pop beyond the number of pushes. -/
theorem c6_lifo_and_sentinel (H S : Type) :
    (∀ (h : H) (s : S) (st : List (H × S)),
      MPI_Cleanup_handler_pop (MPI_Cleanup_handler_push h s st) = ((some h, some s), st)) ∧
    (∀ (ps : List (H × S)) (k : Nat),
      runPops k (pushAll ps []) =
        ((ps.reverse.map (fun e => ((some e.1 : Option H), (some e.2 : Option S)))) ++
          List.replicate (k - ps.length) ((none : Option H), (none : Option S))).take k) := by
  constructor
  · intro h s st
    rfl
  · intro ps k
    rw [pushAll_eq, runPops_eq]
    simp

/-- C7 counterexample: in the episode `gBothDied` both ranks 0 and 1 are
replacements, so the death is confirmed (the line-72 MPI_LAND is 1) and
both are dead ranks; the MAXLOC reduction identifies rank 0, the lowest,
not the highest dead rank 1 claimed by the tie-break. -/
theorem c7_tiebreak_counterexample :
    someone_died gBothDied = 1 ∧ who_died gBothDied = 0 ∧ who_died gBothDied ≠ 1 := by
  decide

/-- C7 (amended): the MAXLOC reduction over the `i_died` flags
deterministically identifies the LOWEST dead rank (MPI_MAXLOC breaks
value ties toward the smaller rank index): if rank j is a replacement
and every rank below j is not, then `who_died` is j, rank j is indeed
dead (`i_died` = 1 there), and j is the owner rank used in the replica
reports ANDed by `have_cp`. -/
theorem c7_maxloc_lowest_dead_rank (g : List ProcEnv) (j : Nat) (hj : j < g.length)
    (hdead : (g.get ⟨j, hj⟩).start_state = MPI_Start_state.MPI_START_ADDED)
    (hlow : ∀ (k : Nat) (hk : k < j),
      (g.get ⟨k, Nat.lt_trans hk hj⟩).start_state ≠ MPI_Start_state.MPI_START_ADDED) :
    who_died g = j ∧
    i_died (g.get ⟨j, hj⟩) = 1 ∧
    have_cp g = allreduce_land (g.map (fun p => p.have_neighbor_checkpoint_for j)) := by
  obtain ⟨p, g2, rfl⟩ : ∃ p g2, g = p :: g2 := by
    cases g with
    | nil => exact absurd hj (Nat.not_lt_zero j)
    | cons p g2 => exact ⟨p, g2, rfl⟩
  have hv : ∀ y ∈ (p :: g2).map i_died, y = 0 ∨ y = 1 := by
    intro y hy
    rcases List.mem_map.mp hy with ⟨q, _, rfl⟩
    unfold i_died
    split
    · right; rfl
    · left; rfl
  have hlen : j < ((p :: g2).map i_died).length := by simpa using hj
  have hget1 : ((p :: g2).map i_died).get ⟨j, hlen⟩ = 1 := by
    simp only [List.get_eq_getElem, List.getElem_map]
    have hje : (p :: g2)[j] = (p :: g2).get ⟨j, hj⟩ := by
      simp [List.get_eq_getElem]
    rw [hje]
    unfold i_died
    rw [if_pos hdead]
  have hzero : ∀ (k : Nat) (hk : k < j),
      ((p :: g2).map i_died).get ⟨k, Nat.lt_trans hk hlen⟩ = 0 := by
    intro k hk
    simp only [List.get_eq_getElem, List.getElem_map]
    have hkg : k < (p :: g2).length := Nat.lt_trans hk hj
    have hke : (p :: g2)[k] = (p :: g2).get ⟨k, hkg⟩ := by
      simp [List.get_eq_getElem]
    rw [hke]
    unfold i_died
    rw [if_neg (hlow k hk)]
  have hfo : firstOne ((p :: g2).map i_died) = some j :=
    firstOne_of_least _ j hlen hget1 hzero
  have hwho : who_died (p :: g2) = j := by
    unfold who_died
    rw [show (p :: g2).map i_died = i_died p :: g2.map i_died from rfl,
      allreduce_maxloc_firstOne (i_died p) (g2.map i_died) hv]
    rw [show firstOne (i_died p :: g2.map i_died) = some j from hfo]
  refine ⟨hwho, ?_, ?_⟩
  · unfold i_died
    rw [if_pos hdead]
  · unfold have_cp
    rw [hwho]

/-- C7 witness: the lowest-dead-rank identification applied to the
two-rank episode `gOneDead`, whose only replacement is rank 1. -/
theorem c7_maxloc_witness :
    (1 < gOneDead.length) ∧ who_died gOneDead = 1 :=
  ⟨by decide,
   (c7_maxloc_lowest_dead_rank gOneDead 1 (by decide) (by decide) (by decide)).1⟩


/-- C8: probing with no pending fault is a no-op: the probe leaves the
whole observable process state — cleanup stack, step ledger, fault mode,
restart step, pending flag and phase — unchanged. -/
theorem c8_probe_noop (s : ProcState) (h : s.fault_pending = false) :
    MPI_Fault_probe s = s := by
  unfold MPI_Fault_probe
  rw [h]
  simp

/-- C8 witness: the probe applied to the concrete quiescent state. -/
theorem c8_probe_noop_witness :
    quietState.fault_pending = false ∧ MPI_Fault_probe quietState = quietState :=
  ⟨rfl, c8_probe_noop quietState rfl⟩

/-- C9: checkpoint resolution tries the in-memory cache for exactly the
restart step first (src/example.c line 97) and loads from it when
present; otherwise it falls back to durable storage for that step; and
the resolve contract fails (returns none, fatal per the spec) exactly
when neither source has data for the step. -/
theorem c9_resolve_priority (p : ProcEnv) (mem_has disk_has : Int → Bool) (step : Int) :
    (p.can_load_checkpoint_from_memory step ≠ 0 →
      load_checkpoint_source p step = CheckpointSource.memory_cache) ∧
    (p.can_load_checkpoint_from_memory step = 0 →
      load_checkpoint_source p step = CheckpointSource.durable_storage) ∧
    (mem_has step = true → resolve mem_has disk_has step = some CheckpointSource.memory_cache) ∧
    (mem_has step = false → disk_has step = true →
      resolve mem_has disk_has step = some CheckpointSource.durable_storage) ∧
    (resolve mem_has disk_has step = none ↔
      mem_has step = false ∧ disk_has step = false) := by
  refine ⟨?_, ?_, ?_, ?_, ?_⟩
  · intro h
    unfold load_checkpoint_source
    rw [if_pos h]
  · intro h
    unfold load_checkpoint_source
    rw [if_neg (by simp [h])]
  · intro h
    unfold resolve
    rw [if_pos h]
  · intro hm hd
    unfold resolve
    rw [if_neg (by simp [hm]), if_pos hd]
  · unfold resolve
    cases hm : mem_has step <;> cases hd : disk_has step <;> simp [hm, hd]

/-- C9 witness: the resolution order on a rank with no in-memory copy of
step 7, and the resolve contract with only durable storage holding it. -/
theorem c9_resolve_priority_witness :
    pNoMem.can_load_checkpoint_from_memory 7 = 0 ∧
    load_checkpoint_source pNoMem 7 = CheckpointSource.durable_storage ∧
    resolve (fun _ => false) (fun _ => true) 7 = some CheckpointSource.durable_storage :=
  ⟨rfl,
   (c9_resolve_priority pNoMem (fun _ => false) (fun _ => true) 7).2.1 rfl,
   (c9_resolve_priority pNoMem (fun _ => false) (fun _ => true) 7).2.2.2.1 rfl rfl⟩

/-- C10: `application_cleanup_handler` returns ABORT without calling
`reinit_libraries()` when `deallocate_app_data()` returns 0, returns
ABORT after calling `reinit_libraries()` when the latter returns 0, and
returns SUCCESS otherwise; the result never depends on the
`start_state` or `state` arguments. -/
theorem c10_cleanup_handler_cases (dealloc reinit : Int)
    (ss1 ss2 : MPI_Start_state) (st1 st2 : Int) :
    (dealloc = 0 → application_cleanup_handler dealloc reinit ss1 st1 =
      (MPI_Cleanup_code.MPI_CLEANUP_ABORT, false)) ∧
    (dealloc ≠ 0 → reinit = 0 → application_cleanup_handler dealloc reinit ss1 st1 =
      (MPI_Cleanup_code.MPI_CLEANUP_ABORT, true)) ∧
    (dealloc ≠ 0 → reinit ≠ 0 → application_cleanup_handler dealloc reinit ss1 st1 =
      (MPI_Cleanup_code.MPI_CLEANUP_SUCCESS, true)) ∧
    application_cleanup_handler dealloc reinit ss1 st1 =
      application_cleanup_handler dealloc reinit ss2 st2 := by
  unfold application_cleanup_handler
  refine ⟨?_, ?_, ?_, rfl⟩
  · intro h
    rw [if_pos h]
  · intro h1 h2
    rw [if_neg h1, if_pos h2]
  · intro h1 h2
    rw [if_neg h1, if_neg h2]

/-- C10 witness: the ABORT-without-reinit case at dealloc = 0. -/
theorem c10_cleanup_handler_witness :
    ((0 : Int) = 0) ∧
    application_cleanup_handler 0 1 MPI_Start_state.MPI_START_NEW 0 =
      (MPI_Cleanup_code.MPI_CLEANUP_ABORT, false) :=
  ⟨rfl,
   (c10_cleanup_handler_cases 0 1 MPI_Start_state.MPI_START_NEW
     MPI_Start_state.MPI_START_ADDED 0 5).1 rfl⟩
